import Mathlib

/-!
Verification of the `FilterSweeper` parameter-sweep pipeline of the
`eats-worm` repository (`gcamp_extractor/FilterSweeper.py`).

The embedding models:
* image volumes as flattened lists of rational intensity samples
  (`Volume`); the Gaussian-blur and median-filter steps live in the
  external `segfunctions` module, so they are taken as arbitrary function
  parameters (`BlurStep`, `MedStep`) — every theorem about the sweep
  controller holds for every choice of those two steps;
* the `FilterSweeper` object state as a structure, its `__init__`
  parameter dictionary as a record of optional entries;
* `numpy.quantile` (default linear interpolation) as `npQuantile`;
* Python `list` subscription, including negative-index wrap-around, as
  `pyGet`; Python exceptions as the `PyErr` error type carried in
  `Except`;
* in-place mutation potential of the external blur step: a `BlurStep`
  returns both its result and the value its argument buffer holds after
  the call.  `copy.deepcopy` allocates a fresh buffer holding an equal
  value, so at the value level it is the identity, and the buffer kept in
  `self.stacks` is the original, untouched one.
-/

namespace EatsWorm

/-- A volume of intensity samples (flattened: the claims never need the
Z/Y/X structure, which only the external filter steps consume). -/
abbrev Volume := List ℚ

/-- A boolean mask volume, the thresholding output. -/
abbrev MaskVolume := List Bool

/-- The parameter tuple passed to `gaussian3d` in the source:
`(width_x_val, width_y_val, sigma_x, sigma_y, width_z_val, sigma_z)`. -/
abbrev GaussTuple := ℚ × ℚ × ℚ × ℚ × ℚ × ℚ

/-- Computable floor of a rational (`q.num / q.den`, integer division). -/
def ratFloor (q : ℚ) : ℤ := q.num / q.den

/-- Computable ceiling of a rational. -/
def ratCeil (q : ℚ) : ℤ := -ratFloor (-q)

/-- Ascending sort, as `numpy` sorts before interpolating a quantile. -/
def sortedOf (data : List ℚ) : List ℚ := data.insertionSort (· ≤ ·)

/-- Linear interpolation at virtual index `h` into the sorted samples
`s`: the value between `s[⌊h⌋]` and `s[⌈h⌉]` at fractional position
`h - ⌊h⌋`. -/
def interp (s : List ℚ) (h : ℚ) : ℚ :=
  s.getD (ratFloor h).toNat 0 +
    (h - ((ratFloor h : ℤ) : ℚ)) *
      (s.getD (ratCeil h).toNat 0 - s.getD (ratFloor h).toNat 0)

/-- `numpy.quantile(data, q)` with the default linear interpolation:
on the ascending sort `s` of `data` with `n` entries, the virtual index
is `h = q * (n - 1)` and the result interpolates between `s[⌊h⌋]` and
`s[⌈h⌉]`. -/
def npQuantile (data : List ℚ) (q : ℚ) : ℚ :=
  interp (sortedOf data) (q * (((sortedOf data).length : ℚ) - 1))

/-- `filtered > cutoff` on a volume: the elementwise strict-greater
boolean mask produced by the threshold step. -/
def thresholdMask (filtered : Volume) (cutoff : ℚ) : MaskVolume :=
  filtered.map (fun v => decide (cutoff < v))

/-- `copy.deepcopy`: allocates a fresh buffer with an equal value, so at
the value level it is the identity; its point is that mutations of the
copy never reach the original buffer. -/
def deepcopy (v : Volume) : Volume := v

/-- Python exceptions that the modelled code can raise. -/
inductive PyErr
  | attributeError
  | nameError
  | indexError
deriving DecidableEq

/-- Python list subscription `l[i]`: non-negative indices are looked up
directly, negative indices wrap around from the end, and anything out of
range raises `IndexError` (modelled as `none`). -/
def pyGet (l : List ℚ) (i : ℤ) : Option ℚ :=
  if 0 ≤ i then l.get? i.toNat
  else if 0 ≤ i + l.length then l.get? (i + l.length).toNat
  else none

/-- The mutable state of a `FilterSweeper` object.  `gaussian` and
`median` are absent until `sweep_parameters` assigns them at session
close, hence the `Option`. -/
structure FilterSweeper where
  stackList : List Volume
  width_x_val : ℚ
  width_y_val : ℚ
  width_z_val : ℚ
  sigma_x : ℚ
  sigma_y : ℚ
  sigma_z : ℚ
  median_sizes : List ℚ
  median_index : ℤ
  quantile : ℚ
  gaussian : Option GaussTuple
  median : Option ℚ
deriving DecidableEq

/-- The optional `params` dictionary accepted by `FilterSweeper.__init__`:
each recognised key may be present or absent. -/
structure ParamsDict where
  width_x_val : Option ℚ
  width_y_val : Option ℚ
  width_z_val : Option ℚ
  sigma_x : Option ℚ
  sigma_y : Option ℚ
  sigma_z : Option ℚ
  median_sizes : Option (List ℚ)
  median_index : Option ℤ
  quantile : Option ℚ

/-- The empty `params` dictionary (also models passing `params=None`). -/
def emptyParams : ParamsDict :=
  ⟨none, none, none, none, none, none, none, none, none⟩

/-- `FilterSweeper.__init__`: each attribute comes from the params
dictionary via `params.get(key, default)`. -/
def FilterSweeper.init (stackList : List Volume) (params : ParamsDict) :
    FilterSweeper where
  stackList := stackList
  width_x_val := params.width_x_val.getD 3
  width_y_val := params.width_y_val.getD 3
  width_z_val := params.width_z_val.getD 3
  sigma_x := params.sigma_x.getD 1
  sigma_y := params.sigma_y.getD 1
  sigma_z := params.sigma_z.getD 1
  median_sizes := params.median_sizes.getD [1, 3, 5]
  median_index := params.median_index.getD 1
  quantile := params.quantile.getD (mkRat 9 10)
  gaussian := none
  median := none

/-- The median-size selection `self.median_sizes[self.median_index]`. -/
def selectMedianSize (s : FilterSweeper) : Option ℚ :=
  pyGet s.median_sizes s.median_index

/-- One invocation of the `filter_and_threshold` magicgui callback
carries the current values of all eight controls.  Half-widths are
integer sliders; quantile and sigmas are float sliders. -/
structure SliderEvent where
  quantile : ℚ
  median_index : ℤ
  width_x : ℤ
  width_y : ℤ
  width_z : ℤ
  sigma_x : ℚ
  sigma_y : ℚ
  sigma_z : ℚ
deriving DecidableEq

/-- The attribute stores executed at the top of the callback body:
`self.quantile = quantile`, …, `self.width_x_val = 2 * width_x + 1`, ….
They happen before any filtering and are not validated. -/
def storeParams (s : FilterSweeper) (ev : SliderEvent) : FilterSweeper :=
  { s with
    quantile := ev.quantile
    median_index := ev.median_index
    width_x_val := 2 * (ev.width_x : ℚ) + 1
    width_y_val := 2 * (ev.width_y : ℚ) + 1
    width_z_val := 2 * (ev.width_z : ℚ) + 1
    sigma_x := ev.sigma_x
    sigma_y := ev.sigma_y
    sigma_z := ev.sigma_z }

/-- The external `gaussian3d`, abstracted: given the argument buffer and
the parameter tuple it yields `(result, value of the argument buffer
after the call)` — the second component models possible in-place
mutation by the external code. -/
abbrev BlurStep := Volume → GaussTuple → Volume × Volume

/-- The external `medFilter2d`, abstracted (its argument is already a
temporary, so its mutation behaviour is irrelevant). -/
abbrev MedStep := Volume → ℚ → Volume

/-- The tuple the callback passes to `gaussian3d`. -/
def gpOf (s : FilterSweeper) : GaussTuple :=
  (s.width_x_val, s.width_y_val, s.sigma_x, s.sigma_y, s.width_z_val,
    s.sigma_z)

/-- One iteration of the callback's `for stack in self.stackList` loop:
blur a `deepcopy` of the stack, median-filter, threshold against the
quantile of the (unblurred) layer data.  The first component is the
buffer `self.stacks` keeps referencing afterwards: the original stack,
untouched because only the deep copy was handed to the blur step. -/
def recomputeStack (blurStep : BlurStep) (medStep : MedStep)
    (gp : GaussTuple) (msize : ℚ) (layerData : Volume) (q : ℚ)
    (stack : Volume) : Volume × MaskVolume :=
  let arg := deepcopy stack
  let blurred := (blurStep arg gp).1
  let filtered := medStep blurred msize
  (stack, thresholdMask filtered (npQuantile layerData q))

/-- The `filter_and_threshold` callback.  A falsy `layer` (`none`) skips
the whole body and returns Python `None`.  Otherwise all eight parameter
attributes are stored first; then the loop runs.  If `self.stacks` is
empty the loop body never executes and an empty result is returned even
if the median index is out of range; otherwise an out-of-range median
index raises `IndexError` in the first iteration, after the parameter
stores have already happened. -/
def filter_and_threshold (blurStep : BlurStep) (medStep : MedStep)
    (s : FilterSweeper) (layer : Option Volume) (ev : SliderEvent) :
    FilterSweeper × Except PyErr (Option (List MaskVolume)) :=
  match layer with
  | none => (s, .ok none)
  | some layerData =>
    let s1 := storeParams s ev
    if s1.stackList.isEmpty then (s1, .ok (some []))
    else
      match pyGet s1.median_sizes s1.median_index with
      | none => (s1, .error .indexError)
      | some msize =>
        let processed := s1.stackList.map
          (recomputeStack blurStep medStep (gpOf s1) msize layerData
            s1.quantile)
        ({ s1 with stackList := processed.map Prod.fst },
          .ok (some (processed.map Prod.snd)))

/-- The record `final_params` built by `sweep_parameters` at session
close; building it subscripts `self.median_sizes[self.median_index]`. -/
structure ResultRecord where
  gaussian : GaussTuple
  median : ℚ
  quantile : ℚ
deriving DecidableEq

/-- `final_params` as assembled at the end of `sweep_parameters`:
`gaussian` is `(width_x_val, width_y_val, sigma_x, sigma_y, width_z_val,
sigma_z)`, `median` is the selected size, `quantile` the stored float. -/
def final_params (s : FilterSweeper) : Option ResultRecord :=
  match selectMedianSize s with
  | none => none
  | some m => some ⟨gpOf s, m, s.quantile⟩

/-- The tail of `sweep_parameters` after the GUI loop ends: it builds
`final_params`, assigns `self.gaussian` and `self.median`, prints the
record — and then falls off the end of the function, so the Python
function returns `None`.  The second component of the result is that
return value. -/
def sweep_parameters_close (s : FilterSweeper) :
    Except PyErr (FilterSweeper × Option ResultRecord) :=
  match final_params s with
  | none => .error .indexError
  | some fp =>
    .ok ({ s with gaussian := some fp.gaussian, median := some fp.median },
      none)

/-- An `Extractor` object as consumed by `FilterSweeper.from_extractor`:
`gaussian` is the stored parameter sequence (`none` models a missing
attribute, on which every access raises `AttributeError`), similarly
`quantile` and `median`; `get_t` is the image source `e.im.get_t`. -/
structure Extractor where
  gaussian : Option (List ℚ)
  quantile : Option ℚ
  median : Option ℚ
  get_t : ℕ → Volume

/-- The gaussian-decoding `try`/`except` of `from_extractor`, yielding
`(width_x_val, width_y_val, width_z_val, sigma_x, sigma_y, sigma_z)`.
When the attribute is missing, `len(e.gaussian)` raises inside the
`try`, and the handler's own `e.gaussian[2]` raises again, so an
`AttributeError` propagates.  When the attribute is a sequence, the
guarded subscripts in the `try` cannot raise, so the handler never runs;
a length other than 4 or 6 leaves the local names unassigned and the
later packing into the params dict raises a `NameError`
(`UnboundLocalError`). -/
def decodeGaussian : Option (List ℚ) → Except PyErr (ℚ × ℚ × ℚ × ℚ × ℚ × ℚ)
  | none => .error .attributeError
  | some g =>
    if g.length = 4 then
      .ok (g.getD 0 0, g.getD 0 0, g.getD 2 0, g.getD 1 0, g.getD 1 0,
        g.getD 3 0)
    else if g.length = 6 then
      .ok (g.getD 0 0, g.getD 1 0, g.getD 4 0, g.getD 2 0, g.getD 3 0,
        g.getD 5 0)
    else .error .nameError

/-- `median_index = median_sizes.index(e.median)` wrapped in a bare
`try`/`except`: a missing `median` attribute or a value not contained in
`[1, 3, 5]` falls back to index 1. -/
def decodeMedianIndex (m : Option ℚ) : ℤ :=
  match m with
  | none => 1
  | some v =>
    match ([1, 3, 5] : List ℚ).findIdx? (fun x => decide (x = v)) with
    | some i => (i : ℤ)
    | none => 1

/-- `FilterSweeper.from_extractor`: decode the gaussian tuple, the
quantile (default 0.99 on a missing attribute) and the median size
(default index 1), pack the params dict, deep-copy `timepoints` volumes
out of the image source, and construct the object. -/
def from_extractor (e : Extractor) (timepoints : ℕ) :
    Except PyErr FilterSweeper := do
  let (wx, wy, wz, sx, sy, sz) ← decodeGaussian e.gaussian
  let params : ParamsDict :=
    { width_x_val := some wx
      width_y_val := some wy
      width_z_val := some wz
      sigma_x := some sx
      sigma_y := some sy
      sigma_z := some sz
      median_sizes := some [1, 3, 5]
      median_index := some (decodeMedianIndex e.median)
      quantile := some (e.quantile.getD (mkRat 99 100)) }
  let vols := (List.range timepoints).map (fun i => deepcopy (e.get_t i))
  pure (FilterSweeper.init vols params)

/-- A trivial blur step used to instantiate the parametric theorems at
concrete inputs: returns its argument unchanged and leaves the argument
buffer unmutated. -/
def idBlur : BlurStep := fun v _ => (v, v)

/-- A trivial median step used to instantiate the parametric theorems. -/
def idMed : MedStep := fun v _ => v

/-- A `FilterSweeper` with one single-voxel volume and default
parameters. -/
def demoState : FilterSweeper := FilterSweeper.init [[0]] emptyParams

/-- A slider event carrying the out-of-range median index 3 and a
changed quantile. -/
def demoEvent : SliderEvent := ⟨mkRat 1 2, 3, 0, 0, 0, 0, 0, 0⟩

/-- A default `FilterSweeper` with no volumes. -/
def c1state : FilterSweeper := FilterSweeper.init [] emptyParams

/-- A `FilterSweeper` constructed with a params dict holding the
negative median index -1. -/
def c3state : FilterSweeper :=
  FilterSweeper.init [] { emptyParams with median_index := some (-1) }

/-- An extractor with no `gaussian`, `quantile` or `median` attribute. -/
def c4extractor : Extractor := ⟨none, none, none, fun _ => []⟩

/-- An extractor with a 4-element gaussian tuple, no `quantile`
attribute, and a `median` size 4 that is not in the candidate list. -/
def c4extractor2 : Extractor :=
  ⟨some [3, mkRat 3 2, 5, 2], none, some 4, fun _ => []⟩

/-- A `FilterSweeper` with no volumes, for width-normalization
instantiation. -/
def c5state : FilterSweeper := FilterSweeper.init [] emptyParams

/-- A slider event with in-range values and distinct half-widths. -/
def c5event : SliderEvent := ⟨mkRat 3 4, 1, 2, 3, 4, 1, 1, 1⟩

/-- A `FilterSweeper` with one two-voxel volume and default
parameters. -/
def c8state : FilterSweeper := FilterSweeper.init [[0, 2]] emptyParams

/-- A slider event with in-range values (median index 1, size 3). -/
def c8event : SliderEvent := ⟨mkRat 1 2, 1, 1, 1, 1, 1, 1, 1⟩

theorem ratFloor_eq (q : ℚ) : ratFloor q = ⌊q⌋ := (Rat.floor_def).symm

theorem ratCeil_eq (q : ℚ) : ratCeil q = ⌈q⌉ := by
  rw [ratCeil, ratFloor_eq, Int.floor_neg, neg_neg]

theorem recomputeStack_fst (blurStep : BlurStep) (medStep : MedStep)
    (gp : GaussTuple) (msize : ℚ) (layerData : Volume) (q : ℚ)
    (stack : Volume) :
    (recomputeStack blurStep medStep gp msize layerData q stack).1 =
      stack := rfl

theorem filter_state_eq (blurStep : BlurStep) (medStep : MedStep)
    (s : FilterSweeper) (layerData : Volume) (ev : SliderEvent) :
    (filter_and_threshold blurStep medStep s (some layerData) ev).1 =
      storeParams s ev := by
  unfold filter_and_threshold
  by_cases he : (storeParams s ev).stackList.isEmpty
  · simp [he]
  · cases hm : pyGet (storeParams s ev).median_sizes
        (storeParams s ev).median_index with
    | none => simp [he, hm]
    | some msize =>
      simp only [he, hm, if_false, Bool.false_eq_true]
      rw [List.map_map]
      have hid : (Prod.fst ∘
          recomputeStack blurStep medStep (gpOf (storeParams s ev)) msize
            layerData (storeParams s ev).quantile) = id := by
        funext st
        exact recomputeStack_fst ..
      rw [hid, List.map_id]

/-- C10: when the layer argument of the `filter_and_threshold` callback
is falsy, the callback performs no recomputation, leaves every field of
the `FilterSweeper` (in particular quantile, median_index, the three
widths and the three sigmas) unchanged, and returns Python `None`. -/
theorem c10_falsy_layer_noop (blurStep : BlurStep) (medStep : MedStep)
    (s : FilterSweeper) (ev : SliderEvent) :
    filter_and_threshold blurStep medStep s none ev = (s, .ok none) := rfl

/-- C9: a recomputation hands only a `deepcopy` of each stack to the
filter steps, so the volumes held in `self.stacks` are unchanged by the
callback — for every behaviour of the external blur and median steps,
including ones that mutate their argument buffer. -/
theorem c9_stacks_unchanged (blurStep : BlurStep) (medStep : MedStep)
    (s : FilterSweeper) (layer : Option Volume) (ev : SliderEvent) :
    (filter_and_threshold blurStep medStep s layer ev).1.stackList =
      s.stackList := by
  cases layer with
  | none => rfl
  | some layerData =>
    rw [filter_state_eq]
    rfl

/-- C5: for half-widths `h ≥ 0` from the width sliders, the stored
widths after a parameter-change recomputation equal `2*h + 1`, hence
every stored width is odd and at least 1. -/
theorem c5_width_normalization (blurStep : BlurStep) (medStep : MedStep)
    (s : FilterSweeper) (layerData : Volume) (ev : SliderEvent)
    (hx : 0 ≤ ev.width_x) (hy : 0 ≤ ev.width_y) (hz : 0 ≤ ev.width_z) :
    ((filter_and_threshold blurStep medStep s (some layerData) ev).1.width_x_val
        = 2 * (ev.width_x : ℚ) + 1 ∧
      (∃ k : ℕ,
        (filter_and_threshold blurStep medStep s (some layerData) ev).1.width_x_val
          = 2 * (k : ℚ) + 1) ∧
      1 ≤ (filter_and_threshold blurStep medStep s (some layerData) ev).1.width_x_val) ∧
    ((filter_and_threshold blurStep medStep s (some layerData) ev).1.width_y_val
        = 2 * (ev.width_y : ℚ) + 1 ∧
      (∃ k : ℕ,
        (filter_and_threshold blurStep medStep s (some layerData) ev).1.width_y_val
          = 2 * (k : ℚ) + 1) ∧
      1 ≤ (filter_and_threshold blurStep medStep s (some layerData) ev).1.width_y_val) ∧
    ((filter_and_threshold blurStep medStep s (some layerData) ev).1.width_z_val
        = 2 * (ev.width_z : ℚ) + 1 ∧
      (∃ k : ℕ,
        (filter_and_threshold blurStep medStep s (some layerData) ev).1.width_z_val
          = 2 * (k : ℚ) + 1) ∧
      1 ≤ (filter_and_threshold blurStep medStep s (some layerData) ev).1.width_z_val) := by
  rw [filter_state_eq]
  refine ⟨⟨rfl, ⟨ev.width_x.toNat, ?_⟩, ?_⟩, ⟨rfl, ⟨ev.width_y.toNat, ?_⟩, ?_⟩,
    ⟨rfl, ⟨ev.width_z.toNat, ?_⟩, ?_⟩⟩
  all_goals
    simp only [storeParams]
  · rw [show ((ev.width_x.toNat : ℕ) : ℚ) = ((ev.width_x : ℤ) : ℚ) by
      exact_mod_cast congrArg (fun z => ((z : ℤ) : ℚ)) (Int.toNat_of_nonneg hx)]
  · have : (0 : ℚ) ≤ (ev.width_x : ℚ) := by exact_mod_cast hx
    linarith
  · rw [show ((ev.width_y.toNat : ℕ) : ℚ) = ((ev.width_y : ℤ) : ℚ) by
      exact_mod_cast congrArg (fun z => ((z : ℤ) : ℚ)) (Int.toNat_of_nonneg hy)]
  · have : (0 : ℚ) ≤ (ev.width_y : ℚ) := by exact_mod_cast hy
    linarith
  · rw [show ((ev.width_z.toNat : ℕ) : ℚ) = ((ev.width_z : ℤ) : ℚ) by
      exact_mod_cast congrArg (fun z => ((z : ℤ) : ℚ)) (Int.toNat_of_nonneg hz)]
  · have : (0 : ℚ) ≤ (ev.width_z : ℚ) := by exact_mod_cast hz
    linarith

/-- C5 witness: the width-normalization theorem instantiated at a
concrete state and event with half-widths 2, 3, 4. -/
theorem c5_width_normalization_witness :
    ((0 : ℤ) ≤ c5event.width_x ∧ (0 : ℤ) ≤ c5event.width_y ∧
      (0 : ℤ) ≤ c5event.width_z) ∧
    (((filter_and_threshold idBlur idMed c5state (some []) c5event).1.width_x_val
        = 2 * (c5event.width_x : ℚ) + 1 ∧
      (∃ k : ℕ,
        (filter_and_threshold idBlur idMed c5state (some []) c5event).1.width_x_val
          = 2 * (k : ℚ) + 1) ∧
      1 ≤ (filter_and_threshold idBlur idMed c5state (some []) c5event).1.width_x_val) ∧
    ((filter_and_threshold idBlur idMed c5state (some []) c5event).1.width_y_val
        = 2 * (c5event.width_y : ℚ) + 1 ∧
      (∃ k : ℕ,
        (filter_and_threshold idBlur idMed c5state (some []) c5event).1.width_y_val
          = 2 * (k : ℚ) + 1) ∧
      1 ≤ (filter_and_threshold idBlur idMed c5state (some []) c5event).1.width_y_val) ∧
    ((filter_and_threshold idBlur idMed c5state (some []) c5event).1.width_z_val
        = 2 * (c5event.width_z : ℚ) + 1 ∧
      (∃ k : ℕ,
        (filter_and_threshold idBlur idMed c5state (some []) c5event).1.width_z_val
          = 2 * (k : ℚ) + 1) ∧
      1 ≤ (filter_and_threshold idBlur idMed c5state (some []) c5event).1.width_z_val)) :=
  ⟨⟨by decide, by decide, by decide⟩,
    c5_width_normalization idBlur idMed c5state [] c5event (by decide)
      (by decide) (by decide)⟩

/-- C1: at session close, `sweep_parameters` assembles `final_params`
whose fields do match the stored ParameterSet — but the Python function
ends with the `print` call and has no `return` statement, so its return
value (second component here) is `None`, not the ResultRecord dict that
the claim and the function's own docstring promise. -/
theorem c1_missing_return :
    final_params c1state = some ⟨(3, 3, 1, 1, 3, 1), 3, mkRat 9 10⟩ ∧
    sweep_parameters_close c1state =
      .ok ({ c1state with
              gaussian := some (3, 3, 1, 1, 3, 1)
              median := some 3 }, none) := by
  constructor
  · with_unfolding_all rfl
  · with_unfolding_all rfl

/-- C2 counterexample: a recomputation whose median index 3 violates the
domain constraint does not leave the prior ParameterSet unchanged — the
quantile (and every other control value) is overwritten before the
failure, which is an `IndexError`, not an `InvalidParameter`. -/
theorem c2_no_error_atomicity :
    demoEvent.median_index = 3 ∧
    (filter_and_threshold idBlur idMed demoState (some [0]) demoEvent).2 =
      .error .indexError ∧
    demoState.quantile = mkRat 9 10 ∧
    (filter_and_threshold idBlur idMed demoState (some [0]) demoEvent).1.quantile
      = mkRat 1 2 := by
  refine ⟨rfl, ?_, rfl, ?_⟩
  · with_unfolding_all rfl
  · with_unfolding_all rfl

/-- C2 amended: the callback performs no domain validation and defines
no `InvalidParameter`; all eight control values are stored into the
object unconditionally before filtering, and a recomputation over a
non-empty stack list whose median index is out of range then fails with
`IndexError`, the prior ParameterSet having already been overwritten. -/
theorem c2_store_then_index_error (blurStep : BlurStep) (medStep : MedStep)
    (s : FilterSweeper) (layerData : Volume) (ev : SliderEvent)
    (hne : s.stackList ≠ [])
    (hidx : pyGet s.median_sizes ev.median_index = none) :
    filter_and_threshold blurStep medStep s (some layerData) ev =
      (storeParams s ev, .error .indexError) := by
  unfold filter_and_threshold
  have he : (storeParams s ev).stackList.isEmpty = false := by
    cases hs : s.stackList with
    | nil => exact absurd hs hne
    | cons a t =>
      show s.stackList.isEmpty = false
      rw [hs]
      rfl
  have hm : pyGet (storeParams s ev).median_sizes
      (storeParams s ev).median_index = none := hidx
  simp only [he, hm, Bool.false_eq_true, if_false]

/-- C2 witness: the amended statement instantiated at a concrete state
and an event carrying the out-of-range median index 3. -/
theorem c2_store_then_index_error_witness :
    demoState.stackList ≠ [] ∧
    pyGet demoState.median_sizes demoEvent.median_index = none ∧
    filter_and_threshold idBlur idMed demoState (some [0]) demoEvent =
      (storeParams demoState demoEvent, .error .indexError) :=
  ⟨by decide, by decide,
    c2_store_then_index_error idBlur idMed demoState [0] demoEvent
      (by decide) (by decide)⟩

/-- C3 counterexample: the median index -1 lies outside `[0, 2]`, yet
the selection `self.median_sizes[self.median_index]` does not fail — it
wraps around Python-style and yields size 5. -/
theorem c3_negative_index_wraps :
    c3state.median_index = -1 ∧ selectMedianSize c3state = some 5 := by
  exact ⟨rfl, by decide⟩

/-- C3 amended: selection follows Python list subscription on
`[1, 3, 5]`: indices 0, 1, 2 map to sizes 1, 3, 5 as claimed, but the
indices -1, -2, -3 also succeed, wrapping to 5, 3, 1; only indices at least 3 or
below -3 fail, and with `IndexError` (the code defines no
`InvalidParameter`). -/
theorem c3_python_indexing (i : ℤ) :
    selectMedianSize
        (FilterSweeper.init [] { emptyParams with median_index := some i }) =
      if i = 0 ∨ i = -3 then some 1
      else if i = 1 ∨ i = -2 then some 3
      else if i = 2 ∨ i = -1 then some 5
      else none := by
  show pyGet [1, 3, 5] i = _
  rcases le_or_lt 0 i with h0 | h0
  · obtain ⟨n, rfl⟩ := Int.eq_ofNat_of_zero_le h0
    match n with
    | 0 => decide
    | 1 => decide
    | 2 => decide
    | (k + 3) =>
      rw [if_neg (by omega), if_neg (by omega), if_neg (by omega)]
      unfold pyGet
      rw [if_pos (by positivity)]
      rw [show ((((k : ℕ) + 3 : ℕ) : ℤ)).toNat = k + 3 from by omega]
      rfl
  · obtain ⟨n, rfl⟩ : ∃ n : ℕ, i = -((n : ℤ) + 1) :=
      ⟨(-i - 1).toNat, by omega⟩
    match n with
    | 0 => decide
    | 1 => decide
    | 2 => decide
    | (k + 3) =>
      rw [if_neg (by omega), if_neg (by omega), if_neg (by omega)]
      unfold pyGet
      rw [if_neg (by omega), if_neg (by simp only [List.length]; omega)]

/-- C7: `from_extractor` decodes a 4-element gaussian tuple
`(w, s, wz, sz)` as uniform x/y (`width_x = width_y = w`,
`sigma_x = sigma_y = s`, `width_z = wz`, `sigma_z = sz`), and a
6-element tuple `(wx, wy, sx, sy, wz, sz)` with fully independent
per-axis values — for every tuple contents, so in particular for the
two concrete examples `(3, 1.5, 5, 2.0)` and `(3, 5, 1.0, 1.5, 7, 2.0)`
of the claim. -/
theorem c7_tuple_decoding :
    (∀ a b c d : ℚ, ∀ qe me : Option ℚ, ∀ im : ℕ → Volume, ∀ t : ℕ,
      ∃ s, from_extractor ⟨some [a, b, c, d], qe, me, im⟩ t = .ok s ∧
        s.width_x_val = a ∧ s.width_y_val = a ∧ s.sigma_x = b ∧
        s.sigma_y = b ∧ s.width_z_val = c ∧ s.sigma_z = d) ∧
    (∀ a b c d e f : ℚ, ∀ qe me : Option ℚ, ∀ im : ℕ → Volume, ∀ t : ℕ,
      ∃ s, from_extractor ⟨some [a, b, c, d, e, f], qe, me, im⟩ t = .ok s ∧
        s.width_x_val = a ∧ s.width_y_val = b ∧ s.sigma_x = c ∧
        s.sigma_y = d ∧ s.width_z_val = e ∧ s.sigma_z = f) := by
  constructor
  · intro a b c d qe me im t
    exact ⟨_, rfl, rfl, rfl, rfl, rfl, rfl, rfl⟩
  · intro a b c d e f qe me im t
    exact ⟨_, rfl, rfl, rfl, rfl, rfl, rfl, rfl⟩

/-- C4 counterexample: an extractor whose gaussian attribute is missing
is a decode failure, and `from_extractor` does not fall back — the
`except` handler itself subscripts `e.gaussian`, so the `AttributeError`
propagates out of the constructor. -/
theorem c4_decode_failure_propagates :
    from_extractor c4extractor 1 = .error .attributeError := rfl

/-- C4 amended: the gaussian decode succeeds exactly for a stored
sequence of length 4 or 6.  A missing attribute propagates an
`AttributeError` (the handler's own subscripts re-raise), and any other
length propagates a `NameError` (no decode branch assigns the local
names), so decode failures are fatal rather than falling back.  The
quantile and median fallbacks of the claim do hold: a missing quantile
attribute yields 0.99, and a missing median or one not in `[1, 3, 5]`
yields index 1. -/
theorem decodeGaussian_some (g : List ℚ) :
    decodeGaussian (some g) =
      if g.length = 4 then
        .ok (g.getD 0 0, g.getD 0 0, g.getD 2 0, g.getD 1 0, g.getD 1 0,
          g.getD 3 0)
      else if g.length = 6 then
        .ok (g.getD 0 0, g.getD 1 0, g.getD 4 0, g.getD 2 0, g.getD 3 0,
          g.getD 5 0)
      else .error .nameError := rfl

theorem c4_fallbacks (e : Extractor) (t : ℕ) :
    (e.gaussian = none → from_extractor e t = .error .attributeError) ∧
    (∀ g, e.gaussian = some g → g.length ≠ 4 → g.length ≠ 6 →
      from_extractor e t = .error .nameError) ∧
    (∀ g, e.gaussian = some g → g.length = 4 ∨ g.length = 6 →
      (from_extractor e t).toOption.map FilterSweeper.quantile =
          some (e.quantile.getD (mkRat 99 100)) ∧
      (from_extractor e t).toOption.map FilterSweeper.median_index =
          some (decodeMedianIndex e.median)) ∧
    (e.quantile = none → e.quantile.getD (mkRat 99 100) = mkRat 99 100) ∧
    (e.median = none → decodeMedianIndex e.median = 1) ∧
    (∀ mv, e.median = some mv → mv ≠ 1 → mv ≠ 3 → mv ≠ 5 →
      decodeMedianIndex e.median = 1) := by
  refine ⟨?_, ?_, ?_, ?_, ?_, ?_⟩
  · intro hg
    unfold from_extractor
    rw [hg]
    rfl
  · intro g hg h4 h6
    unfold from_extractor
    rw [hg, decodeGaussian_some, if_neg h4, if_neg h6]
    rfl
  · intro g hg hlen
    have hex : ∃ w, decodeGaussian (some g) = .ok w := by
      rw [decodeGaussian_some]
      rcases hlen with h | h
      · rw [if_pos h]
        exact ⟨_, rfl⟩
      · by_cases h4 : g.length = 4
        · rw [if_pos h4]
          exact ⟨_, rfl⟩
        · rw [if_neg h4, if_pos h]
          exact ⟨_, rfl⟩
    obtain ⟨⟨wx, wy, wz, sx, sy, sz⟩, hw⟩ := hex
    unfold from_extractor
    rw [hg, hw]
    exact ⟨rfl, rfl⟩
  · intro hq
    rw [hq]
    rfl
  · intro hm
    rw [hm]
    rfl
  · intro mv hm h1 h3 h5
    rw [hm]
    unfold decodeMedianIndex
    have e1 : decide ((1 : ℚ) = mv) = false := by
      exact decide_eq_false (fun h => h1 h.symm)
    have e3 : decide ((3 : ℚ) = mv) = false := by
      exact decide_eq_false (fun h => h3 h.symm)
    have e5 : decide ((5 : ℚ) = mv) = false := by
      exact decide_eq_false (fun h => h5 h.symm)
    simp only [List.findIdx?, e1, e3, e5]
    rfl

/-- C4 witness: the amended statement instantiated at an extractor with
a 4-element gaussian tuple, a missing quantile attribute (falling back
to 0.99) and the median size 4 not in the candidate list (falling back
to index 1). -/
theorem c4_fallbacks_witness :
    c4extractor2.gaussian = some ([3, mkRat 3 2, 5, 2] : List ℚ) ∧
    (([3, mkRat 3 2, 5, 2] : List ℚ).length = 4 ∨
      ([3, mkRat 3 2, 5, 2] : List ℚ).length = 6) ∧
    (from_extractor c4extractor2 1).toOption.map FilterSweeper.quantile =
      some (mkRat 99 100) ∧
    (from_extractor c4extractor2 1).toOption.map FilterSweeper.median_index =
      some 1 := by
  refine ⟨rfl, Or.inl rfl, ?_, ?_⟩
  · exact ((c4_fallbacks c4extractor2 1).2.2.1 _ rfl (Or.inl rfl)).1
  · have h2 := ((c4_fallbacks c4extractor2 1).2.2.1 _ rfl (Or.inl rfl)).2
    rw [h2]
    decide

/-- C8: on every successful recomputation the published output marks,
for each stack, exactly the voxels of the median-filtered result that
are strictly greater than the quantile cutoff, and that cutoff is
`npQuantile` of the original, unblurred layer data — never of the
blurred or median-filtered data.  The statement holds for every
behaviour of the external blur and median steps. -/
theorem c8_threshold_source (blurStep : BlurStep) (medStep : MedStep)
    (s : FilterSweeper) (layerData : Volume) (ev : SliderEvent) (msize : ℚ)
    (hm : pyGet s.median_sizes ev.median_index = some msize) :
    (filter_and_threshold blurStep medStep s (some layerData) ev).2 =
      .ok (some (s.stackList.map (fun stack =>
        thresholdMask
          (medStep (blurStep (deepcopy stack) (gpOf (storeParams s ev))).1
            msize)
          (npQuantile layerData ev.quantile)))) := by
  unfold filter_and_threshold
  have hm1 : pyGet (storeParams s ev).median_sizes
      (storeParams s ev).median_index = some msize := hm
  by_cases he : (storeParams s ev).stackList.isEmpty
  · have : s.stackList = [] := by
      cases hs : s.stackList with
      | nil => rfl
      | cons a t =>
        have : (storeParams s ev).stackList = a :: t := hs
        rw [this] at he
        exact absurd he (by simp)
    simp [he, this]
  · simp only [he, hm1, Bool.false_eq_true, if_false]
    rw [List.map_map]
    rfl

/-- C8 witness: the threshold-source theorem instantiated at a concrete
state, layer and event (median index 1, size 3). -/
theorem c8_threshold_source_witness :
    pyGet c8state.median_sizes c8event.median_index = some 3 ∧
    (filter_and_threshold idBlur idMed c8state (some [0, 1, 2, 3]) c8event).2 =
      .ok (some (c8state.stackList.map (fun stack =>
        thresholdMask
          (idMed (idBlur (deepcopy stack) (gpOf (storeParams c8state c8event))).1
            3)
          (npQuantile [0, 1, 2, 3] c8event.quantile)))) :=
  ⟨by decide,
    c8_threshold_source idBlur idMed c8state [0, 1, 2, 3] c8event 3
      (by decide)⟩

theorem interp_eq (s : List ℚ) (h : ℚ) :
    interp s h = s.getD (⌊h⌋).toNat 0 +
      (h - ((⌊h⌋ : ℤ) : ℚ)) *
        (s.getD (⌈h⌉).toNat 0 - s.getD (⌊h⌋).toNat 0) := by
  rw [interp, ratFloor_eq, ratCeil_eq]

theorem getD_mono_of_sorted {l : List ℚ} (hs : l.Sorted (· ≤ ·))
    {i j : ℕ} (hij : i ≤ j) (hj : j < l.length) :
    l.getD i 0 ≤ l.getD j 0 := by
  have hi : i < l.length := Nat.lt_of_le_of_lt hij hj
  rw [List.getD_eq_getElem l 0 hi, List.getD_eq_getElem l 0 hj]
  rcases Nat.eq_or_lt_of_le hij with rfl | hlt
  · exact le_refl _
  · have := hs.rel_get_of_lt
      (show (⟨i, hi⟩ : Fin l.length) < ⟨j, hj⟩ from hlt)
    rw [List.get_eq_getElem, List.get_eq_getElem] at this
    exact this

theorem quantIdx (s : List ℚ) (h : ℚ) (h0 : 0 ≤ h)
    (hle : h ≤ (s.length : ℚ) - 1) :
    (⌊h⌋).toNat ≤ (⌈h⌉).toNat ∧ (⌈h⌉).toNat < s.length := by
  have hn1 : (1 : ℚ) ≤ (s.length : ℚ) := by linarith
  have hn1n : 1 ≤ s.length := by exact_mod_cast hn1
  have hF0 : 0 ≤ ⌊h⌋ := Int.floor_nonneg.mpr h0
  have hFC : ⌊h⌋ ≤ ⌈h⌉ := Int.floor_le_ceil h
  have hCle : ⌈h⌉ ≤ (s.length : ℤ) - 1 := by
    rw [Int.ceil_le]
    push_cast
    linarith
  omega

theorem interp_ge (s : List ℚ) (hs : s.Sorted (· ≤ ·)) (h : ℚ)
    (h0 : 0 ≤ h) (hle : h ≤ (s.length : ℚ) - 1) :
    s.getD (⌊h⌋).toNat 0 ≤ interp s h := by
  obtain ⟨ht, hl⟩ := quantIdx s h h0 hle
  rw [interp_eq]
  have hfl : ((⌊h⌋ : ℤ) : ℚ) ≤ h := Int.floor_le h
  have hd : 0 ≤ s.getD (⌈h⌉).toNat 0 - s.getD (⌊h⌋).toNat 0 :=
    sub_nonneg.mpr (getD_mono_of_sorted hs ht hl)
  have := mul_nonneg (sub_nonneg.mpr hfl) hd
  linarith

theorem interp_le (s : List ℚ) (hs : s.Sorted (· ≤ ·)) (h : ℚ)
    (h0 : 0 ≤ h) (hle : h ≤ (s.length : ℚ) - 1) :
    interp s h ≤ s.getD (⌈h⌉).toNat 0 := by
  obtain ⟨ht, hl⟩ := quantIdx s h h0 hle
  rw [interp_eq]
  have hf1 : h - ((⌊h⌋ : ℤ) : ℚ) ≤ 1 := by
    have := Int.lt_floor_add_one h
    push_cast at this
    linarith
  have hd : 0 ≤ s.getD (⌈h⌉).toNat 0 - s.getD (⌊h⌋).toNat 0 :=
    sub_nonneg.mpr (getD_mono_of_sorted hs ht hl)
  have := mul_le_of_le_one_left hd hf1
  linarith

theorem interp_mono (s : List ℚ) (hs : s.Sorted (· ≤ ·)) (h1 h2 : ℚ)
    (h0 : 0 ≤ h1) (h12 : h1 ≤ h2) (hle : h2 ≤ (s.length : ℚ) - 1) :
    interp s h1 ≤ interp s h2 := by
  have h0' : 0 ≤ h2 := le_trans h0 h12
  have hle1 : h1 ≤ (s.length : ℚ) - 1 := le_trans h12 hle
  obtain ⟨ht1, hl1⟩ := quantIdx s h1 h0 hle1
  obtain ⟨ht2, hl2⟩ := quantIdx s h2 h0' hle
  rcases eq_or_lt_of_le (Int.floor_mono h12) with hFeq | hFlt
  · rcases eq_or_lt_of_le (Int.ceil_mono h12) with hCeq | hClt
    · rw [interp_eq, interp_eq, ← hFeq, ← hCeq]
      have hd : 0 ≤ s.getD (⌈h1⌉).toNat 0 - s.getD (⌊h1⌋).toNat 0 :=
        sub_nonneg.mpr (getD_mono_of_sorted hs ht1 hl1)
      have := mul_le_mul_of_nonneg_right
        (sub_le_sub_right h12 ((⌊h1⌋ : ℤ) : ℚ)) hd
      linarith
    · have hC1F : ⌈h1⌉ = ⌊h1⌋ := by
        have hc2 := Int.ceil_le_floor_add_one h2
        have hfc := Int.floor_le_ceil h1
        omega
      have hh1 : h1 = ((⌊h1⌋ : ℤ) : ℚ) := by
        have hup : h1 ≤ ((⌈h1⌉ : ℤ) : ℚ) := Int.le_ceil h1
        rw [hC1F] at hup
        exact le_antisymm hup (Int.floor_le h1)
      have hlo : interp s h1 = s.getD (⌊h1⌋).toNat 0 := by
        rw [interp_eq, ← hh1]
        ring
      rw [hlo, show (⌊h1⌋ : ℤ) = ⌊h2⌋ from hFeq]
      exact interp_ge s hs h2 h0' hle
  · have hF10 : 0 ≤ ⌊h1⌋ := Int.floor_nonneg.mpr h0
    have hF20 : 0 ≤ ⌊h2⌋ := Int.floor_nonneg.mpr h0'
    have hc1 := Int.ceil_le_floor_add_one h1
    have hfc2 := Int.floor_le_ceil h2
    have hstep : (⌈h1⌉).toNat ≤ (⌊h2⌋).toNat := by omega
    have hFl2 : (⌊h2⌋).toNat < s.length := by omega
    calc interp s h1 ≤ s.getD (⌈h1⌉).toNat 0 := interp_le s hs h1 h0 hle1
      _ ≤ s.getD (⌊h2⌋).toNat 0 := getD_mono_of_sorted hs hstep hFl2
      _ ≤ interp s h2 := interp_ge s hs h2 h0' hle

theorem npQuantile_mono (data : List ℚ) (q1 q2 : ℚ) (h0 : 0 ≤ q1)
    (h12 : q1 ≤ q2) (h21 : q2 ≤ 1) :
    npQuantile data q1 ≤ npQuantile data q2 := by
  unfold npQuantile
  by_cases hnil : sortedOf data = []
  · rw [hnil]
    simp [interp]
  · have hs : (sortedOf data).Sorted (· ≤ ·) :=
      List.sorted_insertionSort (· ≤ ·) data
    have hn1 : 1 ≤ (sortedOf data).length :=
      List.length_pos.mpr hnil
    have hq1 : (0 : ℚ) ≤ ((sortedOf data).length : ℚ) - 1 := by
      have : (1 : ℚ) ≤ ((sortedOf data).length : ℚ) := by exact_mod_cast hn1
      linarith
    apply interp_mono _ hs
    · exact mul_nonneg h0 hq1
    · exact mul_le_mul_of_nonneg_right h12 hq1
    · calc q2 * (((sortedOf data).length : ℚ) - 1)
          ≤ 1 * (((sortedOf data).length : ℚ) - 1) :=
            mul_le_mul_of_nonneg_right h21 hq1
        _ = ((sortedOf data).length : ℚ) - 1 := one_mul _

/-- C6: for a fixed layer and a fixed blurred/median-filtered input,
raising the quantile can only shrink the set of voxels marked `true`:
every voxel strictly above the `q2` cutoff is strictly above the `q1`
cutoff when `q1 ≤ q2`, and the count of `true` voxels in the threshold
mask is non-increasing in the quantile. -/
theorem c6_threshold_monotone (layerData filtered : List ℚ) (q1 q2 : ℚ)
    (h0 : 0 ≤ q1) (h12 : q1 ≤ q2) (h21 : q2 ≤ 1) :
    (∀ v ∈ filtered, npQuantile layerData q2 < v →
      npQuantile layerData q1 < v) ∧
    (thresholdMask filtered (npQuantile layerData q2)).count true ≤
      (thresholdMask filtered (npQuantile layerData q1)).count true := by
  have hq := npQuantile_mono layerData q1 q2 h0 h12 h21
  constructor
  · intro v _ hv
    exact lt_of_le_of_lt hq hv
  · unfold thresholdMask
    rw [List.count_eq_countP, List.count_eq_countP, List.countP_map,
      List.countP_map]
    apply List.countP_mono_left
    intro v _ hv
    simp only [Function.comp_apply, beq_true, decide_eq_true_eq] at hv ⊢
    exact lt_of_le_of_lt hq hv

/-- C6 witness: the monotonicity theorem instantiated at quantiles 1/4
and 3/4 on a concrete layer and filtered volume. -/
theorem c6_threshold_monotone_witness :
    ((0 : ℚ) ≤ mkRat 1 4 ∧ (mkRat 1 4 : ℚ) ≤ mkRat 3 4 ∧
      (mkRat 3 4 : ℚ) ≤ 1) ∧
    ((∀ v ∈ ([0, 1, 2, 3] : List ℚ),
        npQuantile [0, 1, 2, 3] (mkRat 3 4) < v →
          npQuantile [0, 1, 2, 3] (mkRat 1 4) < v) ∧
      (thresholdMask [0, 1, 2, 3]
          (npQuantile [0, 1, 2, 3] (mkRat 3 4))).count true ≤
        (thresholdMask [0, 1, 2, 3]
          (npQuantile [0, 1, 2, 3] (mkRat 1 4))).count true) :=
  ⟨⟨by decide, by decide, by decide⟩,
    c6_threshold_monotone [0, 1, 2, 3] [0, 1, 2, 3] (mkRat 1 4) (mkRat 3 4)
      (by decide) (by decide) (by decide)⟩

end EatsWorm
